import Mathlib

/-!
Verification of the frontend static file server (src/frontend/server.py).

The script is a thin wrapper over a generic static-file request handler:
it overrides header finalization to inject three CORS headers into every
response, adds an OPTIONS handler answering preflight requests, and a
`main` that changes into the script directory, binds port 3000, prints a
banner, serves until interrupted, and exits cleanly.

Paths are modelled as lists of components, file contents as strings, a
filesystem as an association list from absolute paths to contents.  The
request handler is a pure function from the filesystem, the configured
root directory, the method and the request path to a response together
with the list of file paths it read.  The generic file-serving behaviour
inherited from the standard library (path resolution, 403/404/501
error responses) is not part of the repository source and is modelled
from the spec where so marked.
-/

namespace FrontendServer

/-- A filesystem path, as its list of components. -/
abbrev Path := List String

/-- HTTP methods relevant to the server (spec section 9: the closed set
GET, HEAD, OPTIONS, Other; POST is singled out because the advertised
CORS methods mention it). -/
inductive Method where
  | GET
  | HEAD
  | OPTIONS
  | POST
  | other (name : String)
deriving DecidableEq

/-- An HTTP response: status code, headers, body (bytes as a string). -/
structure Response where
  status : Nat
  headers : List (String × String)
  body : String
deriving DecidableEq

/-- The filesystem: a finite map from absolute paths to regular-file
contents, as an association list. -/
structure FileSystem where
  files : List (Path × String)
deriving DecidableEq

/-- Look up the contents of the regular file at absolute path `p`. -/
def FileSystem.lookup (fs : FileSystem) (p : Path) : Option String :=
  (fs.files.find? (fun e => e.1 == p)).map (fun e => e.2)

/-- The three CORS headers sent by the `end_headers` override
(server.py lines 22-27), with their exact values. -/
def corsHeaders : List (String × String) :=
  [("Access-Control-Allow-Origin", "*"),
   ("Access-Control-Allow-Methods", "GET, POST, OPTIONS"),
   ("Access-Control-Allow-Headers", "Content-Type")]

/-- The `end_headers` override: before the header block is closed, the
three CORS headers are appended to whatever headers the response already
sent (server.py lines 22-27).  Every finished response has a header list that
passes through this function. -/
def end_headers (hs : List (String × String)) : List (String × String) :=
  hs ++ corsHeaders

/-- The `do_OPTIONS` handler (server.py lines 29-32): send status 200,
close the headers (which injects the CORS headers), send no body. -/
def do_OPTIONS : Response :=
  { status := 200, headers := end_headers [], body := "" }

/-- Modelled from the spec: the error responses of the generic handler
(send_error of the standard library handler, absent from src/) carry a
short fixed HTML body naming the status; spec section 7 surfaces all
errors as standard HTTP status codes with no custom body. -/
def errorBody (status : Nat) : String :=
  "<html><body>Error response: " ++ toString status ++ "</body></html>"

/-- Modelled from the spec: a finished error response with the given
status, the fixed error page as body, and headers closed through the
overridden `end_headers`, hence carrying the CORS headers. -/
def send_error (status : Nat) : Response :=
  { status := status,
    headers := end_headers [("Content-Type", "text/html")],
    body := errorBody status }

/-- Modelled from the spec: content type inferred from the file
extension (spec section 4.1); unknown extensions get a generic type. -/
def guessType (name : String) : String :=
  if name.endsWith ".html" then "text/html"
  else if name.endsWith ".css" then "text/css"
  else if name.endsWith ".js" then "text/javascript"
  else if name.endsWith ".json" then "application/json"
  else "application/octet-stream"

/-- Modelled from the spec: one step of lexical path resolution.  Empty
and current-directory components are skipped, a parent component drops
the last resolved component, a plain name is appended. -/
def resolveStep (acc : Path) (c : String) : Path :=
  if c = "" ∨ c = "." then acc
  else if c = ".." then acc.dropLast
  else acc ++ [c]

/-- Modelled from the spec: resolve the request path relative to the
root directory (spec section 4.1: resolve the path relative to
RootDirectory). -/
def resolvePath (root : Path) (p : List String) : Path :=
  p.foldl resolveStep root

/-- Containment check: `isUnder root q` holds when `q` is inside the
directory `root`, i.e. `root` is an initial segment of `q`. -/
def isUnder : Path → Path → Bool
  | [], _ => true
  | _ :: _, [] => false
  | r :: rs, q :: qs => r == q && isUnder rs qs

/-- Modelled from the spec: the GET handler inherited from the standard
library handler (absent from src/), per spec section 4.1: resolve the
path against the root; if it resolves outside the root answer 403
Forbidden; if it names a regular file stream its bytes with a
content type inferred from the extension and status 200; otherwise 404.
The second component records which file paths were read from disk. -/
def do_GET (fs : FileSystem) (root : Path) (p : List String) :
    Response × List Path :=
  let resolved := resolvePath root p
  if isUnder root resolved then
    match fs.lookup resolved with
    | some content =>
        ({ status := 200,
           headers := end_headers
             [("Content-Type", guessType (resolved.getLastD "")),
              ("Content-Length", toString content.length)],
           body := content }, [resolved])
    | none => (send_error 404, [])
  else (send_error 403, [])

/-- Modelled from the spec: the method dispatch of the generic handler
(absent from src/), per spec section 9: a method switch over the closed
set GET, HEAD, OPTIONS, Other.  GET and HEAD go to the inherited file
handler (HEAD with the body suppressed), OPTIONS to the `do_OPTIONS`
override from src/, and a method with no handler defined - POST
included, since the subclass defines none - is rejected by the base
dispatch with 501 Unsupported method. -/
def handleRequest (fs : FileSystem) (root : Path) (m : Method)
    (p : List String) : Response × List Path :=
  match m with
  | .GET => do_GET fs root p
  | .HEAD =>
      let r := do_GET fs root p
      ({ r.1 with body := "" }, r.2)
  | .OPTIONS => (do_OPTIONS, [])
  | .POST => (send_error 501, [])
  | .other _ => (send_error 501, [])

/-- A response carries the three CORS headers with their exact values. -/
def Response.hasCorsHeaders (r : Response) : Prop :=
  ("Access-Control-Allow-Origin", "*") ∈ r.headers ∧
  ("Access-Control-Allow-Methods", "GET, POST, OPTIONS") ∈ r.headers ∧
  ("Access-Control-Allow-Headers", "Content-Type") ∈ r.headers

/- ## Process lifecycle (main, server.py lines 34-50) -/

/-- Observable process events: changing the working directory, binding
the listening socket, printing a line, serving requests, exiting. -/
inductive Event where
  | chdir (dir : Path)
  | bind (port : Nat)
  | print (line : String)
  | serve
  | exitCode (c : Nat)
deriving DecidableEq

/-- Whether an event changes the working directory. -/
def Event.isChdir : Event → Bool
  | .chdir _ => true
  | _ => false

/-- The fixed port (server.py line 14). -/
def PORT : Nat := 3000

/-- The constant `FRONTEND_DIR = Path(__file__).parent` (server.py line
15): the directory containing the entry-point script. -/
def FRONTEND_DIR (scriptFile : Path) : Path := scriptFile.dropLast

/-- The directory handed to the request handler as its serving root
(server.py line 20: `directory=str(FRONTEND_DIR)`). -/
def handlerDirectory (scriptFile : Path) : Path := FRONTEND_DIR scriptFile

/-- Render a path for the banner line naming the served directory. -/
def renderPath (p : Path) : String := "/" ++ String.intercalate "/" p

/-- How a run of the process ends: the serve loop is interrupted by a
keyboard interrupt, or server startup fails (for example the port is in
use) with an error message. -/
inductive ServeOutcome where
  | interrupted
  | startupFailure (msg : String)

/-- The trace of `main` (server.py lines 34-50): change into the
frontend directory; create the server socket on the fixed port; print
the startup banner; serve until a keyboard interrupt, then print the
shutdown notice and exit with code 0.  The startup-failure branch is
modelled from the spec (section 7): an unrecoverable startup failure
prints a clear message and exits with a non-zero code; in the source the
exception escapes `main` uncaught, the interpreter prints the error and
the process exits with code 1. -/
def main (scriptFile : Path) (outcome : ServeOutcome) : List Event :=
  Event.chdir (FRONTEND_DIR scriptFile) ::
    match outcome with
    | .startupFailure msg =>
        [Event.print ("OSError: " ++ msg), Event.exitCode 1]
    | .interrupted =>
        [Event.bind PORT,
         Event.print "🚀 Frontend server running at http://localhost:3000",
         Event.print ("📁 Serving files from: "
           ++ renderPath (FRONTEND_DIR scriptFile)),
         Event.print "🌐 Open your browser and go to: http://localhost:3000",
         Event.print "⏹️  Press Ctrl+C to stop the server",
         Event.print "",
         Event.serve,
         Event.print "\n🛑 Server stopped",
         Event.exitCode 0]

/- ## Helper lemmas -/

/-- Each of the three CORS headers is a member of any header list closed
through `end_headers`. -/
lemma end_headers_has_cors (hs : List (String × String)) :
    ("Access-Control-Allow-Origin", "*") ∈ end_headers hs ∧
    ("Access-Control-Allow-Methods", "GET, POST, OPTIONS") ∈ end_headers hs ∧
    ("Access-Control-Allow-Headers", "Content-Type") ∈ end_headers hs := by
  refine ⟨?_, ?_, ?_⟩ <;>
    exact List.mem_append.mpr (Or.inr (by simp [corsHeaders]))

/-- The headers of every GET response are a header list closed through
`end_headers`. -/
lemma do_GET_headers (fs : FileSystem) (root : Path) (p : List String) :
    ∃ hs, (do_GET fs root p).1.headers = end_headers hs := by
  unfold do_GET
  dsimp only
  split
  · split <;> exact ⟨_, rfl⟩
  · exact ⟨_, rfl⟩

/-- A directory is beneath itself: appending components keeps a path
under its root. -/
lemma isUnder_append (root rel : Path) : isUnder root (root ++ rel) = true := by
  induction root with
  | nil => rfl
  | cons r rs ih => simp [isUnder, ih]

/-- Resolving a path with no empty, current- or parent-directory
components just appends it to the root. -/
lemma resolvePath_no_dots (root : Path) (rel : List String)
    (h : ∀ c ∈ rel, c ≠ "" ∧ c ≠ "." ∧ c ≠ "..") :
    resolvePath root rel = root ++ rel := by
  induction rel generalizing root with
  | nil => simp [resolvePath]
  | cons c cs ih =>
      obtain ⟨h0, h1, h2⟩ := h c (List.mem_cons_self c cs)
      have hstep : resolveStep root c = root ++ [c] := by
        simp [resolveStep, h0, h1, h2]
      have : resolvePath root (c :: cs) = resolvePath (root ++ [c]) cs := by
        simp [resolvePath, List.foldl_cons, hstep]
      rw [this, ih (root ++ [c]) (fun d hd => h d (List.mem_cons_of_mem c hd))]
      simp

/- ## Claim theorems -/

/-- C1: for every request path that resolves outside the root
directory, the GET response has status 403 or 404, and its body is the
fixed error page, independent of the filesystem — in particular it never
contains the contents of any file outside the root, since no file
content flows into it. -/
theorem get_outside_root_safe (fs : FileSystem) (root : Path)
    (p : List String)
    (h : isUnder root (resolvePath root p) = false) :
    ((handleRequest fs root Method.GET p).1.status = 403 ∨
      (handleRequest fs root Method.GET p).1.status = 404) ∧
    (handleRequest fs root Method.GET p).1.body = errorBody 403 ∧
    ∀ fs₂ : FileSystem,
      handleRequest fs₂ root Method.GET p = handleRequest fs root Method.GET p := by
  refine ⟨Or.inl ?_, ?_, fun fs₂ => ?_⟩ <;>
    simp [handleRequest, do_GET, h, send_error]

/-- C1 witness: the traversal request `/../../etc/passwd` against root
`/srv/frontend`, on a filesystem holding `/etc/passwd`, resolves outside
the root, receives status 403 with the fixed error body, and the
response is the same on the empty filesystem. -/
theorem get_outside_root_safe_spot :
    isUnder ["srv", "frontend"]
      (resolvePath ["srv", "frontend"] ["..", "..", "etc", "passwd"]) = false ∧
    (((handleRequest ⟨[(["etc", "passwd"], "root:x:0:0:root")]⟩
        ["srv", "frontend"] Method.GET ["..", "..", "etc", "passwd"]).1.status = 403 ∨
      (handleRequest ⟨[(["etc", "passwd"], "root:x:0:0:root")]⟩
        ["srv", "frontend"] Method.GET ["..", "..", "etc", "passwd"]).1.status = 404) ∧
    (handleRequest ⟨[(["etc", "passwd"], "root:x:0:0:root")]⟩
        ["srv", "frontend"] Method.GET ["..", "..", "etc", "passwd"]).1.body
      = errorBody 403 ∧
    ∀ fs₂ : FileSystem,
      handleRequest fs₂ ["srv", "frontend"] Method.GET ["..", "..", "etc", "passwd"]
        = handleRequest ⟨[(["etc", "passwd"], "root:x:0:0:root")]⟩
            ["srv", "frontend"] Method.GET ["..", "..", "etc", "passwd"]) :=
  ⟨by decide,
   get_outside_root_safe ⟨[(["etc", "passwd"], "root:x:0:0:root")]⟩
     ["srv", "frontend"] ["..", "..", "etc", "passwd"] (by decide)⟩

/-- C2: every response — for every method, every request path, every
filesystem and every configured root, hence every reachable status —
includes the three CORS headers with their exact values. -/
theorem every_response_has_cors (fs : FileSystem) (root : Path)
    (m : Method) (p : List String) :
    (handleRequest fs root m p).1.hasCorsHeaders := by
  cases m with
  | GET =>
      obtain ⟨hs, hh⟩ := do_GET_headers fs root p
      show (do_GET fs root p).1.hasCorsHeaders
      rw [Response.hasCorsHeaders, hh]
      exact end_headers_has_cors hs
  | HEAD =>
      obtain ⟨hs, hh⟩ := do_GET_headers fs root p
      have hhd : (handleRequest fs root Method.HEAD p).1.headers
          = (do_GET fs root p).1.headers := rfl
      rw [Response.hasCorsHeaders, hhd, hh]
      exact end_headers_has_cors hs
  | OPTIONS => exact end_headers_has_cors []
  | POST => exact end_headers_has_cors _
  | other name => exact end_headers_has_cors _

/-- C3: an OPTIONS request, for every path (and every filesystem and
root), receives status 200, an empty body, and the three CORS headers. -/
theorem options_is_200_empty_cors (fs : FileSystem) (root : Path)
    (p : List String) :
    (handleRequest fs root Method.OPTIONS p).1.status = 200 ∧
    (handleRequest fs root Method.OPTIONS p).1.body = "" ∧
    (handleRequest fs root Method.OPTIONS p).1.hasCorsHeaders :=
  ⟨rfl, rfl, end_headers_has_cors []⟩

/-- C4: a GET request for the relative path of an existing regular file
under the root returns status 200 with a body byte-identical to the
file contents on disk. -/
theorem get_existing_file_200 (fs : FileSystem) (root : Path)
    (rel : List String) (content : String)
    (hdots : ∀ c ∈ rel, c ≠ "" ∧ c ≠ "." ∧ c ≠ "..")
    (hfile : fs.lookup (root ++ rel) = some content) :
    (handleRequest fs root Method.GET rel).1.status = 200 ∧
    (handleRequest fs root Method.GET rel).1.body = content := by
  have hres : resolvePath root rel = root ++ rel := resolvePath_no_dots root rel hdots
  constructor <;>
    simp [handleRequest, do_GET, hres, isUnder_append, hfile]

/-- C4 witness: the root `/srv/site` holds `index.html`; a GET for the
relative path `index.html` returns 200 with the file contents. -/
theorem get_existing_file_200_spot :
    (handleRequest ⟨[(["srv", "site", "index.html"], "<h1>Hi</h1>")]⟩
      ["srv", "site"] Method.GET ["index.html"]).1.status = 200 ∧
    (handleRequest ⟨[(["srv", "site", "index.html"], "<h1>Hi</h1>")]⟩
      ["srv", "site"] Method.GET ["index.html"]).1.body = "<h1>Hi</h1>" :=
  get_existing_file_200 ⟨[(["srv", "site", "index.html"], "<h1>Hi</h1>")]⟩
    ["srv", "site"] ["index.html"] "<h1>Hi</h1>" (by decide) (by decide)

/-- C5: a GET request whose path resolves outside the root directory is
answered with status 403 Forbidden. -/
theorem traversal_get_403 (fs : FileSystem) (root : Path)
    (p : List String)
    (h : isUnder root (resolvePath root p) = false) :
    (handleRequest fs root Method.GET p).1.status = 403 := by
  simp [handleRequest, do_GET, h, send_error]

/-- C5 witness: a GET for `..` against root `/app` resolves above the
root and receives 403. -/
theorem traversal_get_403_spot :
    isUnder ["app"] (resolvePath ["app"] [".."]) = false ∧
    (handleRequest ⟨[]⟩ ["app"] Method.GET [".."]).1.status = 403 :=
  ⟨by decide, traversal_get_403 ⟨[]⟩ ["app"] [".."] (by decide)⟩

/-- C6: on a keyboard interrupt the process prints the shutdown notice
and then terminates with exit code 0: the trace of an interrupted run
ends with the notice followed by exit code 0. -/
theorem interrupt_clean_exit (scriptFile : Path) :
    (∃ pre, main scriptFile ServeOutcome.interrupted
        = pre ++ [Event.print "\n🛑 Server stopped", Event.exitCode 0]) ∧
    (main scriptFile ServeOutcome.interrupted).getLast? = some (Event.exitCode 0) :=
  ⟨⟨[Event.chdir (FRONTEND_DIR scriptFile),
     Event.bind PORT,
     Event.print "🚀 Frontend server running at http://localhost:3000",
     Event.print ("📁 Serving files from: "
       ++ renderPath (FRONTEND_DIR scriptFile)),
     Event.print "🌐 Open your browser and go to: http://localhost:3000",
     Event.print "⏹️  Press Ctrl+C to stop the server",
     Event.print "",
     Event.serve], rfl⟩, rfl⟩

/-- C7: on a startup failure (for example the port already in use) the
process prints a message naming the error and exits with a non-zero
code: the trace ends with the error message followed by exit code 1. -/
theorem startup_failure_nonzero_exit (scriptFile : Path) (msg : String) :
    ∃ pre c, main scriptFile (ServeOutcome.startupFailure msg)
        = pre ++ [Event.print ("OSError: " ++ msg), Event.exitCode c]
      ∧ c ≠ 0 :=
  ⟨[Event.chdir (FRONTEND_DIR scriptFile)], 1, rfl, Nat.one_ne_zero⟩

/-- C8: the OPTIONS response is independent of the request path, the
filesystem and the configured root: any two OPTIONS requests produce
identical responses (same status 200, same headers, same body), and the
handler reads no file while answering OPTIONS. -/
theorem options_noninterference (fs₁ fs₂ : FileSystem)
    (root₁ root₂ : Path) (p₁ p₂ : List String) :
    handleRequest fs₁ root₁ Method.OPTIONS p₁
      = handleRequest fs₂ root₂ Method.OPTIONS p₂ ∧
    (handleRequest fs₁ root₁ Method.OPTIONS p₁).2 = [] ∧
    (handleRequest fs₁ root₁ Method.OPTIONS p₁).1.status = 200 :=
  ⟨rfl, rfl, rfl⟩

/-- C9: the Allow-Methods header on every POST response advertises POST,
yet the handler defines no POST handling: every POST request is rejected
with the unsupported-method status 501, reads no file, its body is the
fixed error page, and it is independent of the filesystem — no file is
served or modified in response to POST. -/
theorem post_rejected_501 (fs : FileSystem) (root : Path)
    (p : List String) :
    (handleRequest fs root Method.POST p).1.status = 501 ∧
    (handleRequest fs root Method.POST p).1.body = errorBody 501 ∧
    (handleRequest fs root Method.POST p).2 = [] ∧
    ("Access-Control-Allow-Methods", "GET, POST, OPTIONS")
      ∈ (handleRequest fs root Method.POST p).1.headers ∧
    ∀ fs₂ : FileSystem,
      handleRequest fs₂ root Method.POST p = handleRequest fs root Method.POST p :=
  ⟨rfl, rfl, rfl, (end_headers_has_cors _).2.1, fun _ => rfl⟩

/-- C10: before any connection is accepted, main changes the working
directory, exactly once in the whole trace, as its very first action —
hence before the server socket is created — and its target is the
directory containing the entry-point script, which is also the directory
the request handler serves. -/
theorem chdir_once_first_to_script_dir (scriptFile : Path)
    (outcome : ServeOutcome) :
    (main scriptFile outcome).head?
        = some (Event.chdir (handlerDirectory scriptFile)) ∧
    ((main scriptFile outcome).tail.all fun e => !e.isChdir) = true ∧
    ((main scriptFile outcome).countP Event.isChdir) = 1 ∧
    handlerDirectory scriptFile = scriptFile.dropLast := by
  cases outcome <;>
    refine ⟨rfl, rfl, ?_, rfl⟩ <;>
    simp [main, List.countP_cons, Event.isChdir]

end FrontendServer
